import Mathlib

/- Shallow embedding of the wallet/network session layer of src/App.jsx
(the Dice frontend).  React useState setters are modelled as functional
record updates on SessionState; asynchronous wallet and RPC interactions
are modelled by environment records (ProviderEnv, SwitchEnv, ConnectEnv,
InitEnv) fixing the outcome of each external call; each event handler of
the component becomes a state-transition function.  Chain ids arrive in
handlers already parsed to integers (the JS parseInt of the hex payload). -/

namespace DiceApp

/- Character-list substring search modelling JS String.prototype.includes. -/
def listStartsWith : List Char → List Char → Bool
  | _, [] => true
  | [], _ :: _ => false
  | a :: as, b :: bs => a == b && listStartsWith as bs

def listContainsSeq : List Char → List Char → Bool
  | [], needle => needle.isEmpty
  | a :: t, needle => listStartsWith (a :: t) needle || listContainsSeq t needle

/- error.message?.includes(sub): undefined message is falsy. -/
def includesSubstr (message : Option String) (sub : String) : Bool :=
  match message with
  | none => false
  | some s => listContainsSeq s.data sub.data

/- Network registry (the NETWORKS constant). -/
structure NetworkContracts where
  token : String
  dice : String
deriving DecidableEq

structure NetworkConfig where
  chainId : Int
  name : String
  rpcUrl : String
  contracts : NetworkContracts
deriving DecidableEq

/- Deployment-supplied import.meta.env strings, opaque placeholder values. -/
def VITE_XDC_MAINNET_RPC : String := "VITE_XDC_MAINNET_RPC"
def VITE_TOKEN_ADDRESS : String := "VITE_TOKEN_ADDRESS"
def VITE_DICE_ADDRESS : String := "VITE_DICE_ADDRESS"
def VITE_XDC_APOTHEM_RPC : String := "VITE_XDC_APOTHEM_RPC"
def VITE_APOTHEM_TOKEN_ADDRESS : String := "VITE_APOTHEM_TOKEN_ADDRESS"
def VITE_APOTHEM_DICE_ADDRESS : String := "VITE_APOTHEM_DICE_ADDRESS"

structure Networks where
  MAINNET : NetworkConfig
  APOTHEM : NetworkConfig
deriving DecidableEq

def NETWORKS : Networks :=
  { MAINNET :=
      { chainId := 50
        name := "XDC Mainnet"
        rpcUrl := VITE_XDC_MAINNET_RPC
        contracts := { token := VITE_TOKEN_ADDRESS, dice := VITE_DICE_ADDRESS } }
    APOTHEM :=
      { chainId := 51
        name := "XDC Apothem Testnet"
        rpcUrl := VITE_XDC_APOTHEM_RPC
        contracts := { token := VITE_APOTHEM_TOKEN_ADDRESS, dice := VITE_APOTHEM_DICE_ADDRESS } } }

def SUPPORTED_CHAIN_IDS : List Int := [NETWORKS.MAINNET.chainId, NETWORKS.APOTHEM.chainId]

/- Object.values(NETWORKS).find(n => n.chainId === cid). -/
def findNetwork (cid : Int) : Option NetworkConfig :=
  [NETWORKS.MAINNET, NETWORKS.APOTHEM].find? (fun n => n.chainId == cid)

/- Toast entries; the JS time+random id is modelled by a fresh counter. -/
structure Toast where
  id : Nat
  message : String
  ttype : String
deriving DecidableEq

/- An ethers.Contract handle: address, ABI tag, and the signer account. -/
structure ContractHandle where
  address : String
  abi : String
  signerAccount : String
deriving DecidableEq

structure Contracts where
  token : Option ContractHandle
  dice : Option ContractHandle
deriving DecidableEq

def Contracts.empty : Contracts := ⟨none, none⟩

structure LoadingStates where
  provider : Bool
  contracts : Bool
  wallet : Bool
deriving DecidableEq

/- Outbound wallet requests issued by the session (newest last). -/
inductive WalletReq where
  | requestAccounts
  | getAccounts
  | switchChain (chainIdHex : String)
  | addChain (chainIdHex chainName rpcUrl currencyName currencySymbol : String)
      (decimals : Nat)
deriving DecidableEq

structure SessionState where
  provider : Option Unit
  contracts : Contracts
  account : String
  chainId : Option Int
  toasts : List Toast
  loadingStates : LoadingStates
  lastErrorKey : Option String
  nextToastId : Nat
  tempChainListeners : Nat
  requests : List WalletReq
deriving DecidableEq

/- A raw provider error: numeric code and/or message, either may be absent. -/
structure ProviderError where
  code : Option Int
  message : Option String
deriving DecidableEq

/- addToast's setToasts updater: message-level dedup, then append, then
slice(-3) when the length exceeds 3. -/
def addToastList (t : Toast) (prev : List Toast) : List Toast :=
  if prev.any (fun u => u.message == t.message) then prev
  else
    let newToasts := prev ++ [t]
    if 3 < newToasts.length then newToasts.drop (newToasts.length - 3)
    else newToasts

def addToast (message ttype : String) (s : SessionState) : SessionState :=
  { s with
    toasts := addToastList { id := s.nextToastId, message := message, ttype := ttype } s.toasts
    nextToastId := s.nextToastId + 1 }

/- The pure classification chain inside handleError:
(errorType, errorMessage) from the raw error. -/
def classifyError (e : ProviderError) : String × String :=
  if e.code = some 4001 then
    ("warning", "Transaction cancelled by user")
  else if e.code = some (-32002) then
    ("warning", "Please check your wallet - a connection request is pending")
  else if e.code = some (-32603) then
    ("error", "Network connection issue. Please check your wallet connection.")
  else if includesSubstr e.message "insufficient allowance" then
    ("error", "Insufficient token allowance. Please approve tokens first.")
  else if includesSubstr e.message "insufficient balance" then
    ("error", "Insufficient token balance for this transaction.")
  else
    ("error", "Something went wrong. Please try again later.")

/- The suppression key: raw message and the one-second time bucket (now is
Date.now() in milliseconds). -/
def errorKeyOf (e : ProviderError) (now : Nat) : String :=
  (e.message.getD "Unknown error") ++ "_" ++ toString (now / 1000)

/- handleError: suppression via the last error key, then classification
and toast. -/
def handleError (e : ProviderError) (now : Nat) (s : SessionState) : SessionState :=
  if s.lastErrorKey = some (errorKeyOf e now) then s
  else
    let s1 := { s with lastErrorKey := some (errorKeyOf e now) }
    addToast (classifyError e).2 (classifyError e).1 s1

/- Deterministic behaviour of one BrowserProvider instance. -/
structure ProviderEnv where
  getNetworkOk : Bool
  reportedChainId : Int
  rpcAlive : Bool
  signerOk : Bool
deriving DecidableEq

inductive VResult where
  | ok (chainId : Int)
  | err (message : String)
deriving DecidableEq

/- validateNetwork: reads the chain id, stores it via setChainId, then
checks support, config resolution and RPC liveness. -/
def validateNetwork (env : ProviderEnv) (s : SessionState) : VResult × SessionState :=
  if env.getNetworkOk then
    let currentChainId := env.reportedChainId
    let s1 := { s with chainId := some currentChainId }
    if currentChainId ∈ SUPPORTED_CHAIN_IDS then
      match findNetwork currentChainId with
      | some currentNetwork =>
        if env.rpcAlive then (VResult.ok currentChainId, s1)
        else (VResult.err ("Failed to connect to " ++ currentNetwork.name), s1)
      | none => (VResult.err "Network configuration not found", s1)
    else
      (VResult.err ("Please switch to a supported network. Connected to chain ID: " ++
        toString currentChainId), s1)
  else (VResult.err "provider.getNetwork failed", s)

/- initializeContracts: resolves the config for the provider's chain, gets
a signer for the account and binds both handles; its internal catch calls
handleError and clears contracts, and the function never throws. -/
def initializeContracts (env : ProviderEnv) (account : String) (now : Nat)
    (s : SessionState) : SessionState :=
  if env.getNetworkOk then
    match findNetwork env.reportedChainId with
    | some networkConfig =>
      if env.signerOk then
        { s with
          contracts :=
            { token := some { address := networkConfig.contracts.token, abi := "TokenABI",
                              signerAccount := account }
              dice := some { address := networkConfig.contracts.dice, abi := "DiceABI",
                             signerAccount := account } }
          loadingStates := { s.loadingStates with contracts := false } }
      else
        let s1 := handleError { code := none, message := some "provider.getSigner failed" } now s
        { s1 with contracts := Contracts.empty
                  loadingStates := { s1.loadingStates with contracts := false } }
    | none =>
      let s1 := handleError
        { code := none
          message := some ("Unsupported network. Connected to chain ID: " ++
            toString env.reportedChainId ++ ". Supported chain IDs: 50, 51") } now s
      { s1 with contracts := Contracts.empty
                loadingStates := { s1.loadingStates with contracts := false } }
  else
    let s1 := handleError { code := none, message := some "provider.getNetwork failed" } now s
    { s1 with contracts := Contracts.empty
              loadingStates := { s1.loadingStates with contracts := false } }

/- handleChainChanged: stores the parsed event chain id, clears state on an
unsupported chain, otherwise (when provider and account are set) builds a
fresh provider, re-validates and re-binds; its catch clears state. -/
def handleChainChanged (newChainId : Int) (env : ProviderEnv) (now : Nat)
    (s : SessionState) : SessionState :=
  let s0 := { s with chainId := some newChainId }
  if newChainId ∈ SUPPORTED_CHAIN_IDS then
    if s0.provider.isSome && !(s0.account == "") then
      let s1 := { s0 with provider := some () }
      match validateNetwork env s1 with
      | (VResult.ok _, s2) =>
        addToast "Network changed successfully" "success"
          (initializeContracts env s1.account now s2)
      | (VResult.err msg, s2) =>
        let s3 := handleError { code := none, message := some msg } now s2
        { s3 with contracts := Contracts.empty, provider := none }
    else s0
  else
    addToast "Please switch to a supported network" "warning"
      { s0 with contracts := Contracts.empty, provider := none }

/- handleAccountsChanged: empty list clears only the account; a non-empty
list stores its first element.  Contracts are not touched. -/
def handleAccountsChanged (accounts : List String) (s : SessionState) : SessionState :=
  if accounts.isEmpty then
    addToast "Please connect your wallet" "warning" { s with account := "" }
  else
    { s with account := accounts.headD "" }

inductive ReqOutcome where
  | ok
  | err (code : Option Int) (message : Option String)
deriving DecidableEq

/- Environment of one switchNetwork run. -/
structure SwitchEnv where
  ethereumPresent : Bool
  switchOutcome : ReqOutcome
  addChainOutcome : ReqOutcome
  confirmed : Bool
  postProvider : ProviderEnv
deriving DecidableEq

def networkOf (networkType : String) : NetworkConfig :=
  if networkType == "mainnet" then NETWORKS.MAINNET else NETWORKS.APOTHEM

def chainIdHexOf (networkType : String) : String :=
  "0x" ++ String.mk (Nat.toDigits 16 (networkOf networkType).chainId.toNat)

/- The requesting phase of switchNetwork, up to the await on the
confirmation promise: sets the wallet loading flag, clears contracts,
registers the temporary chainChanged listener, issues the switch request
and, on error code 4902, the add-chain request.  The second component is
the error escaping this phase, if any. -/
def switchNetworkRequestPhase (networkType : String) (env : SwitchEnv)
    (s : SessionState) : SessionState × Option ProviderError :=
  let network := networkOf networkType
  let s1 := { s with loadingStates := { s.loadingStates with wallet := true }
                     contracts := Contracts.empty }
  let s2 := { s1 with tempChainListeners := s1.tempChainListeners + 1 }
  let s3 := { s2 with requests := s2.requests ++ [WalletReq.switchChain (chainIdHexOf networkType)] }
  match env.switchOutcome with
  | ReqOutcome.ok => (s3, none)
  | ReqOutcome.err code msg =>
    if code = some 4902 then
      let s4 := { s3 with requests := s3.requests ++
        [WalletReq.addChain (chainIdHexOf networkType) network.name network.rpcUrl
          "XDC" "XDC" 18] }
      match env.addChainOutcome with
      | ReqOutcome.ok => (s4, none)
      | ReqOutcome.err c2 m2 => (s4, some { code := c2, message := m2 })
    else (s3, some { code := code, message := msg })

/- The resolution phase of switchNetwork, from the await onwards.
capturedAccount is the account captured by the closure when the run
started.  On confirmation the listener was removed by its own handler; on
the timeout rejection it was not.  The catch block classifies the error
and clears contracts and provider; the finally block drops the wallet
loading flag; the second component is the rethrown error, if any. -/
def switchNetworkResolvePhase (networkType : String) (env : SwitchEnv)
    (capturedAccount : String) (pending : Option ProviderError) (now : Nat)
    (s : SessionState) : SessionState × Option ProviderError :=
  let network := networkOf networkType
  match pending with
  | some e =>
    let s1 := handleError e now s
    let s2 := { s1 with contracts := Contracts.empty, provider := none }
    ({ s2 with loadingStates := { s2.loadingStates with wallet := false } }, some e)
  | none =>
    if env.confirmed then
      let s1 := { s with tempChainListeners := s.tempChainListeners - 1 }
      if capturedAccount == "" then
        let s2 := addToast ("Successfully switched to " ++ network.name) "success" s1
        ({ s2 with loadingStates := { s2.loadingStates with wallet := false } }, none)
      else
        let s2 := { s1 with provider := some () }
        match validateNetwork env.postProvider s2 with
        | (VResult.ok _, s3) =>
          let s4 := initializeContracts env.postProvider capturedAccount now s3
          let s5 := addToast ("Successfully switched to " ++ network.name) "success" s4
          ({ s5 with loadingStates := { s5.loadingStates with wallet := false } }, none)
        | (VResult.err msg, s3) =>
          let e : ProviderError := { code := none, message := some msg }
          let s4 := handleError e now s3
          let s5 := { s4 with contracts := Contracts.empty, provider := none }
          ({ s5 with loadingStates := { s5.loadingStates with wallet := false } }, some e)
    else
      let e : ProviderError := { code := none, message := some "Network switch timeout" }
      let s1 := handleError e now s
      let s2 := { s1 with contracts := Contracts.empty, provider := none }
      ({ s2 with loadingStates := { s2.loadingStates with wallet := false } }, some e)

def switchNetwork (networkType : String) (env : SwitchEnv) (now : Nat)
    (s : SessionState) : SessionState × Option ProviderError :=
  if env.ethereumPresent then
    let p := switchNetworkRequestPhase networkType env s
    switchNetworkResolvePhase networkType env s.account p.2 now p.1
  else (s, none)

/- Environment of one connectWallet run. -/
structure ConnectEnv where
  ethereumPresent : Bool
  requestAccountsOk : Bool
  requestAccountsErr : ProviderError
  accounts : List String
  providerEnv : ProviderEnv
  switchEnv : SwitchEnv
deriving DecidableEq

def connectFinally (s : SessionState) : SessionState :=
  { s with loadingStates := { s.loadingStates with wallet := false } }

def connectCatch (e : ProviderError) (now : Nat) (s : SessionState) : SessionState :=
  connectFinally { handleError e now s with
    contracts := Contracts.empty, provider := none, account := "" }

/- connectWallet: prompts for accounts, reads the chain, and either hands
off to switchNetwork("mainnet") when the chain is unsupported (returning
without setting the account) or validates, binds and stores the account. -/
def connectWallet (env : ConnectEnv) (now : Nat) (s : SessionState) : SessionState :=
  let s0 := { s with loadingStates := { s.loadingStates with wallet := true } }
  if env.ethereumPresent then
    let s1 := { s0 with provider := some () }
    let s2 := { s1 with requests := s1.requests ++ [WalletReq.requestAccounts] }
    if env.requestAccountsOk then
      if env.accounts.isEmpty then
        connectCatch { code := none, message := some "No accounts found" } now s2
      else
        if env.providerEnv.getNetworkOk then
          if env.providerEnv.reportedChainId ∈ SUPPORTED_CHAIN_IDS then
            match validateNetwork env.providerEnv s2 with
            | (VResult.ok _, s3) =>
              let s4 := initializeContracts env.providerEnv (env.accounts.headD "") now s3
              let s5 := { s4 with account := env.accounts.headD "" }
              connectFinally (addToast "Wallet connected successfully!" "success" s5)
            | (VResult.err msg, s3) =>
              connectCatch { code := none, message := some msg } now s3
          else
            let s3 := { s2 with contracts := Contracts.empty, provider := none }
            match switchNetwork "mainnet" env.switchEnv now s3 with
            | (s4, none) => connectFinally s4
            | (s4, some e) => connectCatch e now s4
        else
          connectCatch { code := none, message := some "provider.getNetwork failed" } now s2
    else
      connectCatch env.requestAccountsErr now s2
  else
    connectCatch { code := none, message := some "Please install MetaMask to use this application" } now s0

def handleLogout (s : SessionState) : SessionState :=
  addToast "Logged out successfully" "success"
    { s with account := "", contracts := Contracts.empty }

/- Environment of the mount-time init effect. -/
structure InitEnv where
  ethereumPresent : Bool
  providerEnv : ProviderEnv
  accountsOk : Bool
  accounts : List String
deriving DecidableEq

def initialState : SessionState :=
  { provider := none
    contracts := Contracts.empty
    account := ""
    chainId := none
    toasts := []
    loadingStates := { provider := true, contracts := true, wallet := false }
    lastErrorKey := none
    nextToastId := 0
    tempChainListeners := 0
    requests := [] }

def initFinally (s : SessionState) : SessionState :=
  { s with loadingStates := { s.loadingStates with provider := false, contracts := false } }

/- The init useEffect: silent reconnect using eth_accounts. -/
def initEffect (env : InitEnv) (now : Nat) (s : SessionState) : SessionState :=
  if env.ethereumPresent then
    let s1 := { s with provider := some () }
    match validateNetwork env.providerEnv s1 with
    | (VResult.ok _, s2) =>
      let s3 := { s2 with requests := s2.requests ++ [WalletReq.getAccounts] }
      if env.accountsOk then
        if env.accounts.isEmpty then initFinally s3
        else
          let s4 := initializeContracts env.providerEnv (env.accounts.headD "") now s3
          initFinally { s4 with account := env.accounts.headD "" }
      else
        initFinally (handleError { code := none, message := some "eth_accounts failed" } now s3)
    | (VResult.err msg, s2) =>
      initFinally (handleError { code := none, message := some msg } now s2)
  else
    initFinally s

def boot (env : InitEnv) (now : Nat) : SessionState := initEffect env now initialState

/- Session events: wallet-pushed events, user actions, and the two phases
of a switch protocol run (its suspension point at the confirmation await
separates them, so other events may interleave there). -/
inductive Event where
  | accountsChanged (accounts : List String)
  | chainChanged (newChainId : Int) (env : ProviderEnv) (now : Nat)
  | switchStart (networkType : String) (env : SwitchEnv)
  | switchResolve (networkType : String) (env : SwitchEnv) (capturedAccount : String)
      (pending : Option ProviderError) (now : Nat)
  | connect (env : ConnectEnv) (now : Nat)
  | logout

def step (s : SessionState) (e : Event) : SessionState :=
  match e with
  | Event.accountsChanged accounts => handleAccountsChanged accounts s
  | Event.chainChanged cid env now => handleChainChanged cid env now s
  | Event.switchStart nt env =>
      if env.ethereumPresent then (switchNetworkRequestPhase nt env s).1 else s
  | Event.switchResolve nt env cap pending now =>
      (switchNetworkResolvePhase nt env cap pending now s).1
  | Event.connect env now => connectWallet env now s
  | Event.logout => handleLogout s

def run (events : List Event) (s : SessionState) : SessionState := events.foldl step s

/- The observed chain id is supported (an absent chain id counts as not
unsupported). -/
def chainSupported : Option Int → Bool
  | none => true
  | some c => decide (c ∈ SUPPORTED_CHAIN_IDS)

/- The two session invariants tracked across event traces: the toast queue
is capped at 3, and contracts are empty whenever the observed chain id is
unsupported. -/
def ToastsOk (s : SessionState) : Prop := s.toasts.length ≤ 3

def ChainInv (s : SessionState) : Prop :=
  chainSupported s.chainId = false → s.contracts = Contracts.empty

def Good (s : SessionState) : Prop := ChainInv s ∧ ToastsOk s

/- Concrete environments used to exercise the model. -/
def pe50 : ProviderEnv :=
  { getNetworkOk := true, reportedChainId := 50, rpcAlive := true, signerOk := true }

def pe7 : ProviderEnv :=
  { getNetworkOk := true, reportedChainId := 7, rpcAlive := true, signerOk := true }

/- Silent reconnect at load: wallet on chain 50 with one authorized account. -/
def bootEnvConnected : InitEnv :=
  { ethereumPresent := true, providerEnv := pe50, accountsOk := true, accounts := ["0xaaaa"] }

def connectedState : SessionState := boot bootEnvConnected 0

/- No wallet in the environment at load. -/
def bootEnvNoWallet : InitEnv :=
  { ethereumPresent := false, providerEnv := pe50, accountsOk := true, accounts := [] }

def switchEnvOk : SwitchEnv :=
  { ethereumPresent := true, switchOutcome := ReqOutcome.ok, addChainOutcome := ReqOutcome.ok,
    confirmed := true, postProvider := pe50 }

def switchEnvTimeout : SwitchEnv :=
  { ethereumPresent := true, switchOutcome := ReqOutcome.ok, addChainOutcome := ReqOutcome.ok,
    confirmed := false, postProvider := pe50 }

def switchEnv4902 : SwitchEnv :=
  { ethereumPresent := true
    switchOutcome := ReqOutcome.err (some 4902) (some "Unrecognized chain ID")
    addChainOutcome := ReqOutcome.ok
    confirmed := true
    postProvider := { getNetworkOk := true, reportedChainId := 51, rpcAlive := true, signerOk := true } }

/- A run's state while its confirmation await is still pending. -/
def midSwitchState : SessionState := (switchNetworkRequestPhase "mainnet" switchEnvOk initialState).1

/- Explicit connect with the wallet sitting on unsupported chain 7. -/
def cEnvBadChain : ConnectEnv :=
  { ethereumPresent := true, requestAccountsOk := true
    requestAccountsErr := { code := none, message := none }
    accounts := ["0xcccc"], providerEnv := pe7, switchEnv := switchEnvOk }

def isSwitchChainReq : WalletReq → Bool
  | WalletReq.switchChain _ => true
  | _ => false

def tA : Toast := { id := 100, message := "alpha", ttype := "info" }
def tB : Toast := { id := 101, message := "beta", ttype := "info" }
def tC : Toast := { id := 102, message := "gamma", ttype := "info" }
def tW : Toast := { id := 103, message := "delta", ttype := "info" }

def err32603a : ProviderError := { code := some (-32603), message := some "first internal failure" }
def err32603b : ProviderError := { code := some (-32603), message := some "second internal failure" }

/- Projection lemmas for addToast. -/
@[simp] theorem addToast_chainId (m t : String) (s : SessionState) :
    (addToast m t s).chainId = s.chainId := rfl

@[simp] theorem addToast_contracts (m t : String) (s : SessionState) :
    (addToast m t s).contracts = s.contracts := rfl

@[simp] theorem addToast_provider (m t : String) (s : SessionState) :
    (addToast m t s).provider = s.provider := rfl

@[simp] theorem addToast_account (m t : String) (s : SessionState) :
    (addToast m t s).account = s.account := rfl

@[simp] theorem addToast_requests (m t : String) (s : SessionState) :
    (addToast m t s).requests = s.requests := rfl

@[simp] theorem addToast_tempChainListeners (m t : String) (s : SessionState) :
    (addToast m t s).tempChainListeners = s.tempChainListeners := rfl

theorem addToastList_length_le (t : Toast) (prev : List Toast)
    (h : prev.length ≤ 3) : (addToastList t prev).length ≤ 3 := by
  unfold addToastList
  split
  · exact h
  · dsimp only
    split
    · simp only [List.length_drop]
      omega
    · rename_i hlen
      simp only [List.length_append, List.length_singleton] at hlen ⊢
      omega

theorem addToast_toastsOk (m t : String) (s : SessionState)
    (h : ToastsOk s) : ToastsOk (addToast m t s) :=
  addToastList_length_le _ _ h

/- Projection lemmas for handleError. -/
@[simp] theorem handleError_chainId (e : ProviderError) (now : Nat) (s : SessionState) :
    (handleError e now s).chainId = s.chainId := by
  unfold handleError; dsimp only; split <;> rfl

@[simp] theorem handleError_contracts (e : ProviderError) (now : Nat) (s : SessionState) :
    (handleError e now s).contracts = s.contracts := by
  unfold handleError; dsimp only; split <;> rfl

@[simp] theorem handleError_provider (e : ProviderError) (now : Nat) (s : SessionState) :
    (handleError e now s).provider = s.provider := by
  unfold handleError; dsimp only; split <;> rfl

@[simp] theorem handleError_account (e : ProviderError) (now : Nat) (s : SessionState) :
    (handleError e now s).account = s.account := by
  unfold handleError; dsimp only; split <;> rfl

@[simp] theorem handleError_requests (e : ProviderError) (now : Nat) (s : SessionState) :
    (handleError e now s).requests = s.requests := by
  unfold handleError; dsimp only; split <;> rfl

@[simp] theorem handleError_tempChainListeners (e : ProviderError) (now : Nat) (s : SessionState) :
    (handleError e now s).tempChainListeners = s.tempChainListeners := by
  unfold handleError; dsimp only; split <;> rfl

theorem handleError_fresh (e : ProviderError) (now : Nat) (s : SessionState)
    (hkey : s.lastErrorKey = none) :
    handleError e now s =
      addToast (classifyError e).2 (classifyError e).1
        { s with lastErrorKey := some (errorKeyOf e now) } := by
  unfold handleError
  dsimp only
  rw [hkey, if_neg (by simp)]

theorem handleError_toastsOk (e : ProviderError) (now : Nat) (s : SessionState)
    (h : ToastsOk s) : ToastsOk (handleError e now s) := by
  unfold handleError
  dsimp only
  split
  · exact h
  · exact addToast_toastsOk _ _ _ h

/- Characterization of validateNetwork's state update: the stored chain id
is overwritten with the provider's reported id whenever the network read
succeeds, independently of validation success. -/
theorem validateNetwork_snd (env : ProviderEnv) (s : SessionState) :
    (validateNetwork env s).2 =
      if env.getNetworkOk then { s with chainId := some env.reportedChainId } else s := by
  unfold validateNetwork
  dsimp only
  split
  · split
    · split
      · split <;> rfl
      · rfl
    · rfl
  · rfl

theorem validateNetwork_fst_ok (env : ProviderEnv) (s : SessionState) (c : Int)
    (h : (validateNetwork env s).1 = VResult.ok c) :
    env.getNetworkOk = true ∧ env.reportedChainId ∈ SUPPORTED_CHAIN_IDS := by
  unfold validateNetwork at h
  by_cases hok : env.getNetworkOk = true
  · refine ⟨hok, ?_⟩
    by_cases hmem : env.reportedChainId ∈ SUPPORTED_CHAIN_IDS
    · exact hmem
    · simp [hok, hmem] at h
  · simp [Bool.not_eq_true] at hok
    simp [hok] at h

theorem validateNetwork_ok_supported (env : ProviderEnv) (s : SessionState) (c : Int)
    (h : (validateNetwork env s).1 = VResult.ok c) :
    chainSupported ((validateNetwork env s).2).chainId = true := by
  obtain ⟨hok, hmem⟩ := validateNetwork_fst_ok env s c h
  rw [validateNetwork_snd]
  simp [hok, chainSupported, hmem]

@[simp] theorem validateNetwork_snd_contracts (env : ProviderEnv) (s : SessionState) :
    ((validateNetwork env s).2).contracts = s.contracts := by
  rw [validateNetwork_snd]; split <;> rfl

@[simp] theorem validateNetwork_snd_toasts (env : ProviderEnv) (s : SessionState) :
    ((validateNetwork env s).2).toasts = s.toasts := by
  rw [validateNetwork_snd]; split <;> rfl

@[simp] theorem validateNetwork_snd_account (env : ProviderEnv) (s : SessionState) :
    ((validateNetwork env s).2).account = s.account := by
  rw [validateNetwork_snd]; split <;> rfl

@[simp] theorem validateNetwork_snd_provider (env : ProviderEnv) (s : SessionState) :
    ((validateNetwork env s).2).provider = s.provider := by
  rw [validateNetwork_snd]; split <;> rfl

@[simp] theorem validateNetwork_snd_requests (env : ProviderEnv) (s : SessionState) :
    ((validateNetwork env s).2).requests = s.requests := by
  rw [validateNetwork_snd]; split <;> rfl

@[simp] theorem validateNetwork_snd_tempChainListeners (env : ProviderEnv) (s : SessionState) :
    ((validateNetwork env s).2).tempChainListeners = s.tempChainListeners := by
  rw [validateNetwork_snd]; split <;> rfl

/- Projection lemmas for initializeContracts. -/
@[simp] theorem initializeContracts_chainId (env : ProviderEnv) (a : String) (now : Nat)
    (s : SessionState) : (initializeContracts env a now s).chainId = s.chainId := by
  unfold initializeContracts
  dsimp only
  split
  · split
    · split
      · rfl
      · simp
    · simp
  · simp

@[simp] theorem initializeContracts_account (env : ProviderEnv) (a : String) (now : Nat)
    (s : SessionState) : (initializeContracts env a now s).account = s.account := by
  unfold initializeContracts
  dsimp only
  split
  · split
    · split
      · rfl
      · simp
    · simp
  · simp

@[simp] theorem initializeContracts_provider (env : ProviderEnv) (a : String) (now : Nat)
    (s : SessionState) : (initializeContracts env a now s).provider = s.provider := by
  unfold initializeContracts
  dsimp only
  split
  · split
    · split
      · rfl
      · simp
    · simp
  · simp

@[simp] theorem initializeContracts_requests (env : ProviderEnv) (a : String) (now : Nat)
    (s : SessionState) : (initializeContracts env a now s).requests = s.requests := by
  unfold initializeContracts
  dsimp only
  split
  · split
    · split
      · rfl
      · simp
    · simp
  · simp

@[simp] theorem initializeContracts_tempChainListeners (env : ProviderEnv) (a : String) (now : Nat)
    (s : SessionState) : (initializeContracts env a now s).tempChainListeners = s.tempChainListeners := by
  unfold initializeContracts
  dsimp only
  split
  · split
    · split
      · rfl
      · simp
    · simp
  · simp

theorem initializeContracts_toastsOk (env : ProviderEnv) (a : String) (now : Nat)
    (s : SessionState) (h : ToastsOk s) : ToastsOk (initializeContracts env a now s) := by
  unfold initializeContracts
  dsimp only
  split
  · split
    · split
      · exact h
      · exact handleError_toastsOk _ _ _ h
    · exact handleError_toastsOk _ _ _ h
  · exact handleError_toastsOk _ _ _ h

/- Good-preservation for every handler, then for traces. -/
theorem handleAccountsChanged_good (accounts : List String) (s : SessionState)
    (h : Good s) : Good (handleAccountsChanged accounts s) := by
  obtain ⟨hc, ht⟩ := h
  unfold handleAccountsChanged
  split
  · exact ⟨hc, addToast_toastsOk _ _ _ ht⟩
  · exact ⟨hc, ht⟩

theorem handleChainChanged_good (cid : Int) (env : ProviderEnv) (now : Nat)
    (s : SessionState) (h : Good s) : Good (handleChainChanged cid env now s) := by
  obtain ⟨hc, ht⟩ := h
  unfold handleChainChanged
  dsimp only
  split
  · rename_i hmem
    split
    · split
      · rename_i c s2 heq
        have h1 := congrArg Prod.fst heq
        have h2 : _ = s2 := congrArg Prod.snd heq
        constructor
        · intro hbad
          have hsup := validateNetwork_ok_supported _ _ _ h1
          rw [h2] at hsup
          simp only [addToast_chainId, initializeContracts_chainId] at hbad
          rw [hsup] at hbad
          exact absurd hbad (by simp)
        · refine addToast_toastsOk _ _ _ (initializeContracts_toastsOk _ _ _ _ ?_)
          have hts : s2.toasts = s.toasts := by rw [← h2, validateNetwork_snd_toasts]
          unfold ToastsOk
          rw [hts]
          exact ht
      · rename_i msg s2 heq
        have h2 : _ = s2 := congrArg Prod.snd heq
        constructor
        · intro _
          rfl
        · refine handleError_toastsOk _ _ _ ?_
          have hts : s2.toasts = s.toasts := by rw [← h2, validateNetwork_snd_toasts]
          unfold ToastsOk
          rw [hts]
          exact ht
    · constructor
      · intro hbad
        simp [chainSupported, hmem] at hbad
      · exact ht
  · exact ⟨fun _ => rfl, addToast_toastsOk _ _ _ ht⟩

theorem switchNetworkRequestPhase_good (nt : String) (env : SwitchEnv) (s : SessionState)
    (h : Good s) : Good (switchNetworkRequestPhase nt env s).1 := by
  obtain ⟨hc, ht⟩ := h
  unfold switchNetworkRequestPhase
  dsimp only
  split
  · exact ⟨fun _ => rfl, ht⟩
  · split
    · split
      · exact ⟨fun _ => rfl, ht⟩
      · exact ⟨fun _ => rfl, ht⟩
    · exact ⟨fun _ => rfl, ht⟩

theorem switchNetworkResolvePhase_good (nt : String) (env : SwitchEnv) (cap : String)
    (pending : Option ProviderError) (now : Nat) (s : SessionState)
    (h : Good s) : Good (switchNetworkResolvePhase nt env cap pending now s).1 := by
  obtain ⟨hc, ht⟩ := h
  unfold switchNetworkResolvePhase
  dsimp only
  split
  · exact ⟨fun _ => rfl, handleError_toastsOk _ _ _ ht⟩
  · split
    · split
      · exact ⟨hc, addToast_toastsOk _ _ _ ht⟩
      · split
        · rename_i c s3 heq
          have h1 := congrArg Prod.fst heq
          have h2 : _ = s3 := congrArg Prod.snd heq
          constructor
          · intro hbad
            have hsup := validateNetwork_ok_supported _ _ _ h1
            rw [h2] at hsup
            simp only [addToast_chainId, initializeContracts_chainId] at hbad
            rw [hsup] at hbad
            exact absurd hbad (by simp)
          · refine addToast_toastsOk _ _ _ (initializeContracts_toastsOk _ _ _ _ ?_)
            have hts : s3.toasts = s.toasts := by rw [← h2, validateNetwork_snd_toasts]
            unfold ToastsOk
            rw [hts]
            exact ht
        · rename_i msg s3 heq
          have h2 : _ = s3 := congrArg Prod.snd heq
          constructor
          · intro _
            rfl
          · refine handleError_toastsOk _ _ _ ?_
            have hts : s3.toasts = s.toasts := by rw [← h2, validateNetwork_snd_toasts]
            unfold ToastsOk
            rw [hts]
            exact ht
    · exact ⟨fun _ => rfl, handleError_toastsOk _ _ _ ht⟩

theorem switchNetwork_good (nt : String) (env : SwitchEnv) (now : Nat) (s : SessionState)
    (h : Good s) : Good (switchNetwork nt env now s).1 := by
  unfold switchNetwork
  dsimp only
  split
  · exact switchNetworkResolvePhase_good _ _ _ _ _ _ (switchNetworkRequestPhase_good _ _ _ h)
  · exact h

theorem connectWallet_good (env : ConnectEnv) (now : Nat) (s : SessionState)
    (h : Good s) : Good (connectWallet env now s) := by
  obtain ⟨hc, ht⟩ := h
  unfold connectWallet
  dsimp only
  split
  · split
    · split
      · exact ⟨fun _ => rfl, handleError_toastsOk _ _ _ ht⟩
      · split
        · split
          · split
            · rename_i c s3 heq
              have h1 := congrArg Prod.fst heq
              have h2 : _ = s3 := congrArg Prod.snd heq
              constructor
              · intro hbad
                have hsup := validateNetwork_ok_supported _ _ _ h1
                rw [h2] at hsup
                simp only [connectFinally, addToast_chainId, initializeContracts_chainId] at hbad
                rw [hsup] at hbad
                exact absurd hbad (by simp)
              · refine addToast_toastsOk _ _ _ (initializeContracts_toastsOk _ _ _ _ ?_)
                have hts : s3.toasts = s.toasts := by rw [← h2, validateNetwork_snd_toasts]
                unfold ToastsOk
                rw [hts]
                exact ht
            · rename_i msg s3 heq
              have h2 : _ = s3 := congrArg Prod.snd heq
              refine ⟨fun _ => rfl, handleError_toastsOk _ _ _ ?_⟩
              have hts : s3.toasts = s.toasts := by rw [← h2, validateNetwork_snd_toasts]
              unfold ToastsOk
              rw [hts]
              exact ht
          · split
            · rename_i s4 heq
              have h4 : _ = s4 := congrArg Prod.fst heq
              have hg : Good s4 := h4 ▸ switchNetwork_good _ _ _ _ ⟨fun _ => rfl, ht⟩
              exact ⟨hg.1, hg.2⟩
            · rename_i s4 e heq
              have h4 : _ = s4 := congrArg Prod.fst heq
              have hg : Good s4 := h4 ▸ switchNetwork_good _ _ _ _ ⟨fun _ => rfl, ht⟩
              exact ⟨fun _ => rfl, handleError_toastsOk _ _ _ hg.2⟩
        · exact ⟨fun _ => rfl, handleError_toastsOk _ _ _ ht⟩
    · exact ⟨fun _ => rfl, handleError_toastsOk _ _ _ ht⟩
  · exact ⟨fun _ => rfl, handleError_toastsOk _ _ _ ht⟩

theorem handleLogout_good (s : SessionState) (h : Good s) : Good (handleLogout s) :=
  ⟨fun _ => rfl, addToast_toastsOk _ _ _ h.2⟩

theorem step_good (s : SessionState) (e : Event) (h : Good s) : Good (step s e) := by
  unfold step
  match e with
  | Event.accountsChanged accounts => exact handleAccountsChanged_good _ _ h
  | Event.chainChanged cid env now => exact handleChainChanged_good _ _ _ _ h
  | Event.switchStart nt env =>
    dsimp only
    split
    · exact switchNetworkRequestPhase_good _ _ _ h
    · exact h
  | Event.switchResolve nt env cap pending now => exact switchNetworkResolvePhase_good _ _ _ _ _ _ h
  | Event.connect env now => exact connectWallet_good _ _ _ h
  | Event.logout => exact handleLogout_good _ h

theorem run_good (events : List Event) (s : SessionState) (h : Good s) :
    Good (run events s) := by
  induction events generalizing s with
  | nil => exact h
  | cons e rest ih => exact ih (step s e) (step_good s e h)

theorem initEffect_good (env : InitEnv) (now : Nat) (s : SessionState)
    (h : Good s) (hempty : s.contracts = Contracts.empty) :
    Good (initEffect env now s) := by
  obtain ⟨hc, ht⟩ := h
  unfold initEffect
  dsimp only
  split
  · split
    · rename_i c s2 heq
      have h1 := congrArg Prod.fst heq
      have h2 : _ = s2 := congrArg Prod.snd heq
      have hsup := validateNetwork_ok_supported _ _ _ h1
      rw [h2] at hsup
      have ht2 : ToastsOk s2 := by
        have hts : s2.toasts = s.toasts := by rw [← h2, validateNetwork_snd_toasts]
        unfold ToastsOk
        rw [hts]
        exact ht
      split
      · split
        · constructor
          · intro hbad
            simp only [initFinally] at hbad
            rw [hsup] at hbad
            exact absurd hbad (by simp)
          · exact ht2
        · constructor
          · intro hbad
            simp only [initFinally, initializeContracts_chainId] at hbad
            rw [hsup] at hbad
            exact absurd hbad (by simp)
          · exact initializeContracts_toastsOk _ _ _ _ ht2
      · constructor
        · intro hbad
          simp only [initFinally, handleError_chainId] at hbad
          rw [hsup] at hbad
          exact absurd hbad (by simp)
        · exact handleError_toastsOk _ _ _ ht2
    · rename_i msg s2 heq
      have h2 : _ = s2 := congrArg Prod.snd heq
      constructor
      · intro _
        simp only [initFinally, handleError_contracts]
        have hcs : s2.contracts = s.contracts := by rw [← h2, validateNetwork_snd_contracts]
        rw [hcs]
        exact hempty
      · refine handleError_toastsOk _ _ _ ?_
        have hts : s2.toasts = s.toasts := by rw [← h2, validateNetwork_snd_toasts]
        unfold ToastsOk
        rw [hts]
        exact ht
  · exact ⟨fun _ => hempty, ht⟩

theorem initialState_good : Good initialState :=
  ⟨fun _ => rfl, by unfold ToastsOk initialState; simp⟩

theorem boot_good (env : InitEnv) (now : Nat) : Good (boot env now) :=
  initEffect_good env now initialState initialState_good rfl

/- Projection lemmas for the switch protocol phases. -/
theorem requestPhase_tempChainListeners (nt : String) (env : SwitchEnv) (s : SessionState) :
    (switchNetworkRequestPhase nt env s).1.tempChainListeners = s.tempChainListeners + 1 := by
  unfold switchNetworkRequestPhase
  dsimp only
  split
  · rfl
  · split
    · split
      · rfl
      · rfl
    · rfl

theorem requestPhase_contracts (nt : String) (env : SwitchEnv) (s : SessionState) :
    (switchNetworkRequestPhase nt env s).1.contracts = Contracts.empty := by
  unfold switchNetworkRequestPhase
  dsimp only
  split
  · rfl
  · split
    · split
      · rfl
      · rfl
    · rfl

theorem requestPhase_account (nt : String) (env : SwitchEnv) (s : SessionState) :
    (switchNetworkRequestPhase nt env s).1.account = s.account := by
  unfold switchNetworkRequestPhase
  dsimp only
  split
  · rfl
  · split
    · split
      · rfl
      · rfl
    · rfl

theorem requestPhase_mem_switchChain (nt : String) (env : SwitchEnv) (s : SessionState) :
    WalletReq.switchChain (chainIdHexOf nt) ∈ (switchNetworkRequestPhase nt env s).1.requests := by
  unfold switchNetworkRequestPhase
  dsimp only
  split
  · simp
  · split
    · split
      · simp
      · simp
    · simp

theorem resolvePhase_account (nt : String) (env : SwitchEnv) (cap : String)
    (pending : Option ProviderError) (now : Nat) (s : SessionState) :
    (switchNetworkResolvePhase nt env cap pending now s).1.account = s.account := by
  unfold switchNetworkResolvePhase
  dsimp only
  split
  · simp
  · split
    · split
      · simp
      · split
        · rename_i c s3 heq
          have h2 : _ = s3 := congrArg Prod.snd heq
          simp only [addToast_account, initializeContracts_account]
          rw [← h2, validateNetwork_snd_account]
        · rename_i msg s3 heq
          have h2 : _ = s3 := congrArg Prod.snd heq
          simp only [handleError_account]
          rw [← h2, validateNetwork_snd_account]
    · simp

theorem resolvePhase_requests (nt : String) (env : SwitchEnv) (cap : String)
    (pending : Option ProviderError) (now : Nat) (s : SessionState) :
    (switchNetworkResolvePhase nt env cap pending now s).1.requests = s.requests := by
  unfold switchNetworkResolvePhase
  dsimp only
  split
  · simp
  · split
    · split
      · simp
      · split
        · rename_i c s3 heq
          have h2 : _ = s3 := congrArg Prod.snd heq
          simp only [addToast_requests, initializeContracts_requests]
          rw [← h2, validateNetwork_snd_requests]
        · rename_i msg s3 heq
          have h2 : _ = s3 := congrArg Prod.snd heq
          simp only [handleError_requests]
          rw [← h2, validateNetwork_snd_requests]
    · simp

theorem resolvePhase_tempChainListeners (nt : String) (env : SwitchEnv) (cap : String)
    (now : Nat) (s : SessionState) :
    (switchNetworkResolvePhase nt env cap none now s).1.tempChainListeners =
      (if env.confirmed then s.tempChainListeners - 1 else s.tempChainListeners) := by
  unfold switchNetworkResolvePhase
  dsimp only
  by_cases hconf : env.confirmed = true
  · rw [if_pos hconf, if_pos hconf]
    split
    · simp
    · split
      · rename_i c s3 heq
        have h2 : _ = s3 := congrArg Prod.snd heq
        simp only [addToast_tempChainListeners, initializeContracts_tempChainListeners]
        rw [← h2, validateNetwork_snd_tempChainListeners]
      · rename_i msg s3 heq
        have h2 : _ = s3 := congrArg Prod.snd heq
        simp only [handleError_tempChainListeners]
        rw [← h2, validateNetwork_snd_tempChainListeners]
  · rw [if_neg hconf, if_neg hconf]
    simp

theorem resolvePhase_contracts_cap_empty (nt : String) (env : SwitchEnv)
    (pending : Option ProviderError) (now : Nat) (s : SessionState)
    (hempty : s.contracts = Contracts.empty) :
    (switchNetworkResolvePhase nt env "" pending now s).1.contracts = Contracts.empty := by
  unfold switchNetworkResolvePhase
  dsimp only
  split
  · rfl
  · split
    · split
      · simpa using hempty
      · rename_i hcap
        exact (hcap (by decide)).elim
    · rfl

/- Projection lemmas for switchNetwork as a whole. -/
theorem switchNetwork_account (nt : String) (env : SwitchEnv) (now : Nat) (s : SessionState) :
    (switchNetwork nt env now s).1.account = s.account := by
  unfold switchNetwork
  dsimp only
  split
  · rw [resolvePhase_account, requestPhase_account]
  · rfl

theorem switchNetwork_contracts_empty (nt : String) (env : SwitchEnv) (now : Nat)
    (s : SessionState) (hempty : s.contracts = Contracts.empty) (hacct : s.account = "") :
    (switchNetwork nt env now s).1.contracts = Contracts.empty := by
  unfold switchNetwork
  dsimp only
  split
  · rw [hacct]
    exact resolvePhase_contracts_cap_empty _ _ _ _ _ (requestPhase_contracts nt env s)
  · exact hempty

theorem switchNetwork_mem_switchChain (nt : String) (env : SwitchEnv) (now : Nat)
    (s : SessionState) (hp : env.ethereumPresent = true) :
    WalletReq.switchChain (chainIdHexOf nt) ∈ (switchNetwork nt env now s).1.requests := by
  unfold switchNetwork
  dsimp only
  rw [if_pos hp]
  rw [resolvePhase_requests]
  exact requestPhase_mem_switchChain nt env s

/- Projection lemmas for the connect helpers. -/
@[simp] theorem connectFinally_account (s : SessionState) :
    (connectFinally s).account = s.account := rfl

@[simp] theorem connectFinally_contracts (s : SessionState) :
    (connectFinally s).contracts = s.contracts := rfl

@[simp] theorem connectFinally_requests (s : SessionState) :
    (connectFinally s).requests = s.requests := rfl

@[simp] theorem connectCatch_account (e : ProviderError) (now : Nat) (s : SessionState) :
    (connectCatch e now s).account = "" := rfl

@[simp] theorem connectCatch_contracts (e : ProviderError) (now : Nat) (s : SessionState) :
    (connectCatch e now s).contracts = Contracts.empty := rfl

@[simp] theorem connectCatch_requests (e : ProviderError) (now : Nat) (s : SessionState) :
    (connectCatch e now s).requests = s.requests := by
  unfold connectCatch connectFinally
  simp

/-- C1 counterexample: from the silently reconnected session (account
0xaaaa, chain 50, contracts bound), an accounts-changed event delivering
the empty account set leaves both contract handles bound while the account
is empty, so the claimed invariant is false and contract handles are not
invalidated. -/
theorem C1_counterexample :
    (run [Event.accountsChanged []] connectedState).account = "" ∧
    (run [Event.accountsChanged []] connectedState).contracts ≠ Contracts.empty ∧
    (run [Event.accountsChanged []] connectedState).contracts.token =
      some { address := VITE_TOKEN_ADDRESS, abi := "TokenABI", signerAccount := "0xaaaa" } := by
  decide

/-- C1 (amended): over every event trace from boot, the session's contracts
are empty whenever the observed chain id is unsupported; however an
account-changed event delivering an empty account set clears only the
account and leaves the contract handles in place, so contracts can remain
non-empty while the account is empty. -/
theorem C1_contracts_chain_invariant :
    (∀ (ienv : InitEnv) (now : Nat) (events : List Event),
      chainSupported (run events (boot ienv now)).chainId = false →
      (run events (boot ienv now)).contracts = Contracts.empty) ∧
    (∀ s : SessionState,
      (handleAccountsChanged [] s).contracts = s.contracts ∧
      (handleAccountsChanged [] s).account = "") := by
  constructor
  · intro ienv now events
    exact (run_good events _ (boot_good ienv now)).1
  · intro s
    exact ⟨rfl, rfl⟩

/-- C1 witness: the chain-part invariant evaluated on a concrete trace that
reaches an unsupported chain id, plus the empty-account event behaviour at
the connected state. -/
theorem C1_contracts_chain_invariant_witness :
    chainSupported (run [Event.chainChanged 7 pe50 0] (boot bootEnvNoWallet 0)).chainId = false ∧
    (run [Event.chainChanged 7 pe50 0] (boot bootEnvNoWallet 0)).contracts = Contracts.empty ∧
    (handleAccountsChanged [] connectedState).contracts = connectedState.contracts ∧
    (handleAccountsChanged [] connectedState).account = "" :=
  ⟨by decide,
   C1_contracts_chain_invariant.1 bootEnvNoWallet 0 [Event.chainChanged 7 pe50 0] (by decide),
   (C1_contracts_chain_invariant.2 connectedState).1,
   (C1_contracts_chain_invariant.2 connectedState).2⟩

/-- C2 counterexample: a provider reporting unsupported chain 7 makes
validateNetwork fail with the unsupported-network error, yet the stored
chain id is updated from none to 7, so chainId is not updated on success
only. -/
theorem C2_counterexample :
    (validateNetwork pe7 initialState).1 =
      VResult.err "Please switch to a supported network. Connected to chain ID: 7" ∧
    initialState.chainId = none ∧
    ((validateNetwork pe7 initialState).2).chainId = some 7 := by
  decide

/-- C2 (amended): validateNetwork stores the provider-reported chain id
whenever reading the network succeeds — including on unsupported-chain and
failed-liveness failures — and leaves it unchanged only when the network
read itself fails; it never touches the contracts mapping. -/
theorem C2_chainId_update (env : ProviderEnv) (s : SessionState) :
    ((validateNetwork env s).2).chainId =
      (if env.getNetworkOk then some env.reportedChainId else s.chainId) ∧
    ((validateNetwork env s).2).contracts = s.contracts := by
  refine ⟨?_, validateNetwork_snd_contracts env s⟩
  rw [validateNetwork_snd]
  by_cases h : env.getNetworkOk = true
  · rw [if_pos h, if_pos h]
  · rw [if_neg h, if_neg h]

/-- C3 counterexample: a switch run whose 10-second timer fires first
resolves with the temporary chain-changed listener still registered, so a
handler does remain registered after the run resolves. -/
theorem C3_counterexample :
    initialState.tempChainListeners = 0 ∧
    (switchNetwork "mainnet" switchEnvTimeout 0 initialState).1.tempChainListeners = 1 := by
  decide

/-- C3 (amended): when the request phase raises no error, the temporary
chain-changed listener is removed exactly on the confirmation path (a
matching chain-changed event), while on the timeout path it stays
registered after the run resolves. -/
theorem C3_listener_removal (nt : String) (env : SwitchEnv) (now : Nat) (s : SessionState)
    (hp : env.ethereumPresent = true)
    (hreq : (switchNetworkRequestPhase nt env s).2 = none) :
    (switchNetwork nt env now s).1.tempChainListeners =
      (if env.confirmed then s.tempChainListeners else s.tempChainListeners + 1) := by
  unfold switchNetwork
  dsimp only
  rw [if_pos hp, hreq, resolvePhase_tempChainListeners, requestPhase_tempChainListeners]
  by_cases hconf : env.confirmed = true
  · rw [if_pos hconf, if_pos hconf]
    omega
  · rw [if_neg hconf, if_neg hconf]

/-- C3 witness: the amended statement evaluated on a confirmed concrete
run. -/
theorem C3_listener_removal_witness :
    (switchNetwork "mainnet" switchEnvOk 0 initialState).1.tempChainListeners =
      (if switchEnvOk.confirmed then initialState.tempChainListeners
       else initialState.tempChainListeners + 1) :=
  C3_listener_removal "mainnet" switchEnvOk 0 initialState rfl (by decide)

/-- C4 counterexample: on the 4902 path the run issues exactly one
switch-chain request — there is no retry of the switch request after the
add-chain request, contradicting the claimed retry. -/
theorem C4_counterexample :
    ((switchNetwork "testnet" switchEnv4902 0 initialState).1.requests.countP isSwitchChainReq) = 1 ∧
    ¬ ((switchNetwork "testnet" switchEnv4902 0 initialState).1.requests.countP isSwitchChainReq) = 2 := by
  decide

/-- C4 (amended): when the switch-chain request fails with code 4902, the
protocol issues a register-chain request carrying the target network's
name, rpcUrl and native-currency metadata and then proceeds directly to
waiting for confirmation, without retrying the switch-chain request. -/
theorem C4_addChain_no_retry (nt : String) (env : SwitchEnv) (s : SessionState)
    (m : Option String)
    (hsw : env.switchOutcome = ReqOutcome.err (some 4902) m)
    (hadd : env.addChainOutcome = ReqOutcome.ok) :
    (switchNetworkRequestPhase nt env s).1.requests =
      s.requests ++ [WalletReq.switchChain (chainIdHexOf nt),
        WalletReq.addChain (chainIdHexOf nt) (networkOf nt).name (networkOf nt).rpcUrl
          "XDC" "XDC" 18] ∧
    (switchNetworkRequestPhase nt env s).2 = none := by
  unfold switchNetworkRequestPhase
  rw [hsw, hadd]
  dsimp only
  rw [if_pos rfl]
  constructor
  · simp
  · rfl

/-- C4 witness: the amended statement evaluated on the concrete 4902 run. -/
theorem C4_addChain_no_retry_witness :
    (switchNetworkRequestPhase "testnet" switchEnv4902 initialState).1.requests =
      initialState.requests ++ [WalletReq.switchChain (chainIdHexOf "testnet"),
        WalletReq.addChain (chainIdHexOf "testnet") (networkOf "testnet").name
          (networkOf "testnet").rpcUrl "XDC" "XDC" 18] ∧
    (switchNetworkRequestPhase "testnet" switchEnv4902 initialState).2 = none :=
  C4_addChain_no_retry "testnet" switchEnv4902 initialState (some "Unrecognized chain ID") rfl rfl

/-- C5 counterexample: from the state of a first switch run still awaiting
confirmation (wallet loading flag set, one temporary listener armed), a
second switch request is started rather than rejected: it issues its own
switch-chain request and arms a second listener, so two listeners race on
the same chain-change event. -/
theorem C5_counterexample :
    midSwitchState.loadingStates.wallet = true ∧
    midSwitchState.tempChainListeners = 1 ∧
    (switchNetworkRequestPhase "testnet" switchEnvOk midSwitchState).1.tempChainListeners = 2 ∧
    WalletReq.switchChain "0x33" ∈
      (switchNetworkRequestPhase "testnet" switchEnvOk midSwitchState).1.requests := by
  decide

/-- C5 (amended): switchNetwork has no in-flight guard: from any session
state whatsoever — including one in which another switch is pending — the
requesting phase arms one more temporary chain-changed listener and issues
a switch-chain request. -/
theorem C5_no_inflight_guard (nt : String) (env : SwitchEnv) (s : SessionState) :
    (switchNetworkRequestPhase nt env s).1.tempChainListeners = s.tempChainListeners + 1 ∧
    WalletReq.switchChain (chainIdHexOf nt) ∈ (switchNetworkRequestPhase nt env s).1.requests :=
  ⟨requestPhase_tempChainListeners nt env s, requestPhase_mem_switchChain nt env s⟩

/-- C6 counterexample: after an accounts-changed event carrying 0xbbbb,
the stored account is updated but both contract handles still carry the
previous account's signer and no wallet request is issued, so binding is
not re-run for the new account. -/
theorem C6_counterexample :
    connectedState.account = "0xaaaa" ∧
    (handleAccountsChanged ["0xbbbb"] connectedState).account = "0xbbbb" ∧
    (handleAccountsChanged ["0xbbbb"] connectedState).contracts.token =
      some { address := VITE_TOKEN_ADDRESS, abi := "TokenABI", signerAccount := "0xaaaa" } ∧
    (handleAccountsChanged ["0xbbbb"] connectedState).requests = connectedState.requests := by
  decide

/-- C6 (amended): an accounts-changed event with a non-empty account list
updates the stored account to the first account and changes nothing else:
contracts are not re-bound and no wallet interaction happens. -/
theorem C6_account_update_without_rebinding (accounts : List String) (s : SessionState)
    (h : accounts ≠ []) :
    handleAccountsChanged accounts s = { s with account := accounts.headD "" } := by
  cases accounts with
  | nil => exact absurd rfl h
  | cons a t => rfl

/-- C6 witness: the amended statement evaluated at the connected state. -/
theorem C6_account_update_without_rebinding_witness :
    handleAccountsChanged ["0xbbbb"] connectedState =
      { connectedState with account := "0xbbbb" } :=
  C6_account_update_without_rebinding ["0xbbbb"] connectedState (by decide)

/-- C7: the toast queue never exceeds 3 entries along any event trace from
boot, and an enqueue onto a full queue of 3 (with a fresh message) evicts
the oldest entry so exactly the 3 newest remain. -/
theorem C7_toast_queue_cap :
    (∀ (ienv : InitEnv) (now : Nat) (events : List Event),
      (run events (boot ienv now)).toasts.length ≤ 3) ∧
    (∀ (t : Toast) (prev : List Toast), prev.length = 3 →
      prev.any (fun u => u.message == t.message) = false →
      addToastList t prev = prev.drop 1 ++ [t]) := by
  constructor
  · intro ienv now events
    exact (run_good events _ (boot_good ienv now)).2
  · intro t prev h3 hdup
    obtain ⟨a, b, c, rfl⟩ := List.length_eq_three.mp h3
    simp [addToastList, hdup]

/-- C7 witness: the cap on a concrete trace and the eviction equation on a
concrete full queue. -/
theorem C7_toast_queue_cap_witness :
    (run [] (boot bootEnvConnected 0)).toasts.length ≤ 3 ∧
    addToastList tW [tA, tB, tC] = [tB, tC, tW] :=
  ⟨C7_toast_queue_cap.1 bootEnvConnected 0 [],
   (C7_toast_queue_cap.2 tW [tA, tB, tC] rfl (by decide)).trans (by decide)⟩

/-- C8: two error-handling calls whose raw errors classify identically,
landing in the same one-second bucket and hitting a fresh session, surface
exactly one visible notification: the second is suppressed either by the
last-error-key check or by the toast queue's message dedup. -/
theorem C8_error_burst_dedup (e1 e2 : ProviderError) (t1 t2 : Nat) (s : SessionState)
    (hclass : classifyError e1 = classifyError e2)
    (hbucket : t1 / 1000 = t2 / 1000)
    (hts : s.toasts = []) (hkey : s.lastErrorKey = none) :
    (handleError e2 t2 (handleError e1 t1 s)).toasts.length = 1 := by
  have hmsg : (classifyError e1).2 = (classifyError e2).2 := by rw [hclass]
  rw [handleError_fresh e1 t1 s hkey]
  unfold handleError
  dsimp only
  split
  · simp [addToast, addToastList, hts]
  · simp [addToast, addToastList, hts, hmsg]

/-- C8 witness: two code -32603 errors raised 200 milliseconds apart (same
second) on a fresh session yield one visible toast. -/
theorem C8_error_burst_dedup_witness :
    classifyError err32603a = classifyError err32603b ∧
    (0 : Nat) / 1000 = (200 : Nat) / 1000 ∧
    (handleError err32603b 200 (handleError err32603a 0 initialState)).toasts.length = 1 :=
  ⟨by decide, rfl,
   C8_error_burst_dedup err32603a err32603b 0 200 initialState (by decide) rfl rfl rfl⟩

/-- C9 counterexample: for code -32002 the classifier produces the message
"Please check your wallet - a connection request is pending", not the
claimed "A connection request is already pending". -/
theorem C9_counterexample :
    classifyError { code := some (-32002), message := none } =
      ("warning", "Please check your wallet - a connection request is pending") ∧
    ¬ (classifyError { code := some (-32002), message := none }).2 =
        "A connection request is already pending" := by
  decide

/-- C9 (amended): the classifier is the claimed pure mapping but with the
code's actual message texts: 4001 is a warning "Transaction cancelled by
user"; -32002 a warning "Please check your wallet - a connection request
is pending"; -32603 an error "Network connection issue. Please check your
wallet connection."; otherwise the allowance, balance and generic error
messages in that order of precedence. -/
theorem C9_classifier_table (e : ProviderError) :
    (e.code = some 4001 →
      classifyError e = ("warning", "Transaction cancelled by user")) ∧
    (e.code = some (-32002) →
      classifyError e = ("warning", "Please check your wallet - a connection request is pending")) ∧
    (e.code = some (-32603) →
      classifyError e = ("error", "Network connection issue. Please check your wallet connection.")) ∧
    (e.code ≠ some 4001 → e.code ≠ some (-32002) → e.code ≠ some (-32603) →
      includesSubstr e.message "insufficient allowance" = true →
      classifyError e = ("error", "Insufficient token allowance. Please approve tokens first.")) ∧
    (e.code ≠ some 4001 → e.code ≠ some (-32002) → e.code ≠ some (-32603) →
      includesSubstr e.message "insufficient allowance" = false →
      includesSubstr e.message "insufficient balance" = true →
      classifyError e = ("error", "Insufficient token balance for this transaction.")) ∧
    (e.code ≠ some 4001 → e.code ≠ some (-32002) → e.code ≠ some (-32603) →
      includesSubstr e.message "insufficient allowance" = false →
      includesSubstr e.message "insufficient balance" = false →
      classifyError e = ("error", "Something went wrong. Please try again later.")) := by
  unfold classifyError
  refine ⟨fun h => ?_, fun h => ?_, fun h => ?_,
    fun h1 h2 h3 h4 => ?_, fun h1 h2 h3 h4 h5 => ?_, fun h1 h2 h3 h4 h5 => ?_⟩
  · simp [h]
  · simp [h]
  · simp [h]
  · simp [h1, h2, h3, h4]
  · simp [h1, h2, h3, h4, h5]
  · simp [h1, h2, h3, h4, h5]

/-- C9 witness: all six classifier rows evaluated at concrete errors. -/
theorem C9_classifier_table_witness :
    classifyError { code := some 4001, message := none } =
      ("warning", "Transaction cancelled by user") ∧
    classifyError { code := some (-32002), message := none } =
      ("warning", "Please check your wallet - a connection request is pending") ∧
    classifyError { code := some (-32603), message := none } =
      ("error", "Network connection issue. Please check your wallet connection.") ∧
    classifyError { code := none, message := some "execution reverted: insufficient allowance" } =
      ("error", "Insufficient token allowance. Please approve tokens first.") ∧
    classifyError { code := none, message := some "execution reverted: insufficient balance" } =
      ("error", "Insufficient token balance for this transaction.") ∧
    classifyError { code := none, message := some "boom" } =
      ("error", "Something went wrong. Please try again later.") :=
  ⟨(C9_classifier_table _).1 rfl,
   (C9_classifier_table _).2.1 rfl,
   (C9_classifier_table _).2.2.1 rfl,
   (C9_classifier_table _).2.2.2.1 (by decide) (by decide) (by decide) (by decide),
   (C9_classifier_table _).2.2.2.2.1 (by decide) (by decide) (by decide) (by decide) (by decide),
   (C9_classifier_table _).2.2.2.2.2 (by decide) (by decide) (by decide) (by decide) (by decide)⟩

/-- C10: an explicit connect that finds the wallet on an unsupported chain
(with permission granted and accounts available) issues the switch to the
primary network (chain 50, hex 0x32) and returns with the account still
empty and no contracts bound, whatever the switch outcome. -/
theorem C10_connect_unsupported_no_account (env : ConnectEnv) (now : Nat) (s : SessionState)
    (hacct : s.account = "")
    (heth : env.ethereumPresent = true)
    (hreqok : env.requestAccountsOk = true)
    (hne : env.accounts ≠ [])
    (hnet : env.providerEnv.getNetworkOk = true)
    (hbad : env.providerEnv.reportedChainId ∉ SUPPORTED_CHAIN_IDS)
    (hseth : env.switchEnv.ethereumPresent = true) :
    (connectWallet env now s).account = "" ∧
    (connectWallet env now s).contracts = Contracts.empty ∧
    WalletReq.switchChain "0x32" ∈ (connectWallet env now s).requests := by
  have hhex : chainIdHexOf "mainnet" = "0x32" := by decide
  have hie : ¬ env.accounts.isEmpty = true := by
    intro hh
    exact hne (List.isEmpty_iff.mp hh)
  unfold connectWallet
  dsimp only
  rw [if_pos heth, if_pos hreqok, if_neg hie, if_pos hnet, if_neg hbad]
  split
  · rename_i s4 heq
    have h4 : _ = s4 := congrArg Prod.fst heq
    refine ⟨?_, ?_, ?_⟩
    · rw [connectFinally_account, ← h4, switchNetwork_account]
      exact hacct
    · rw [connectFinally_contracts, ← h4]
      exact switchNetwork_contracts_empty _ _ _ _ rfl hacct
    · rw [connectFinally_requests, ← h4, ← hhex]
      exact switchNetwork_mem_switchChain _ _ _ _ hseth
  · rename_i s4 e heq
    have h4 : _ = s4 := congrArg Prod.fst heq
    refine ⟨rfl, rfl, ?_⟩
    · rw [connectCatch_requests, ← h4, ← hhex]
      exact switchNetwork_mem_switchChain _ _ _ _ hseth

/-- C10 witness: the statement evaluated on a concrete connect against a
wallet sitting on chain 7. -/
theorem C10_connect_unsupported_no_account_witness :
    (connectWallet cEnvBadChain 0 initialState).account = "" ∧
    (connectWallet cEnvBadChain 0 initialState).contracts = Contracts.empty ∧
    WalletReq.switchChain "0x32" ∈ (connectWallet cEnvBadChain 0 initialState).requests :=
  C10_connect_unsupported_no_account cEnvBadChain 0 initialState rfl rfl rfl
    (by decide) rfl (by decide) rfl

end DiceApp
